import Mathlib

/-!
Shallow embedding of the cognitive synergy engine
(src/cognitive_synergy_engine.h / .cc).

Doubles in the C++ source are modelled as exact rationals; the claims under
study are order/arithmetic properties that do not depend on rounding.
External collaborators (V8 isolates, libuv, node environments) are opaque:
a context carries only the data the scheduler reads from them, namely the
host-reported memory sample returned by GetMemoryUsage.
-/

namespace Cognitive

/-- CognitiveSynergyConfig (cognitive_synergy_engine.h, lines 20-35). -/
structure CognitiveSynergyConfig where
  cognitive_tick_ms : Nat := 5
  worker_threads : Int := 4
  max_microtasks_per_slice : Int := 100
  attention_based_scheduling : Bool := true
  enable_monitoring : Bool := true
deriving Repr, DecidableEq

/-- IsolateContext (cognitive_synergy_engine.h, lines 38-78): identity,
attention values sti/lti (defaults 50.0), and the memory sample the host
reports via GetMemoryUsage (bytes). The v8 isolate and node environment
handles are opaque and never read by the scheduler logic modelled here. -/
structure IsolateContext where
  id : String
  sti : ℚ := 50
  lti : ℚ := 50
  memoryUsage : Nat := 0
deriving Repr, DecidableEq

/-- CognitiveScheduler state (cognitive_synergy_engine.h, lines 102-105):
config, the candidate vector isolates_, and the round-robin cursor
current_index_ (initialized to 0). -/
structure CognitiveScheduler where
  config : CognitiveSynergyConfig
  isolates : List IsolateContext := []
  current_index : Nat := 0
deriving Repr, DecidableEq

/-- GetIsolateCount (cognitive_synergy_engine.h, line 100). -/
def GetIsolateCount (s : CognitiveScheduler) : Nat :=
  s.isolates.length

/-- One step of the attention-mode selection loop
(cognitive_synergy_engine.cc, lines 82-88): the accumulator is the pair
(selected, max_sti); a candidate replaces it iff its sti is strictly
greater than max_sti. -/
def selectStep (acc : Option IsolateContext × ℚ) (c : IsolateContext) :
    Option IsolateContext × ℚ :=
  if c.sti > acc.2 then (some c, c.sti) else acc

/-- SelectNextIsolate (cognitive_synergy_engine.cc, lines 69-91).
Returns the selected context (nullptr becomes none) together with the
scheduler state after the call (the round-robin branch mutates the
cursor; the attention branch mutates nothing). Round-robin pre-increments:
current_index_ = (current_index_ + 1) % size. Attention mode folds over
the candidates with selected = nullptr and max_sti = -1.0. -/
def SelectNextIsolate (s : CognitiveScheduler) :
    Option IsolateContext × CognitiveScheduler :=
  if s.isolates.isEmpty then (none, s)
  else if !s.config.attention_based_scheduling then
    let idx := (s.current_index + 1) % s.isolates.length
    (s.isolates[idx]?, { s with current_index := idx })
  else
    ((s.isolates.foldl selectStep (none, -1)).1, s)

/-- The memory factor of UpdateAttention (cognitive_synergy_engine.cc,
lines 100-101): 1.0 - memory / (1024.0 * 1024.0 * 100.0), then clamped by
std::max(0.5, std::min(1.0, factor)). -/
def memoryFactor (memory : Nat) : ℚ :=
  max (1/2) (min 1 (1 - (memory : ℚ) / (1024 * 1024 * 100)))

/-- The per-context body of the UpdateAttention loop
(cognitive_synergy_engine.cc, lines 95-105): multiply sti by the clamped
memory factor of the context's reported memory usage. -/
def updateOne (c : IsolateContext) : IsolateContext :=
  { c with sti := c.sti * memoryFactor c.memoryUsage }

/-- UpdateAttention (cognitive_synergy_engine.cc, lines 93-106). -/
def UpdateAttention (s : CognitiveScheduler) : CognitiveScheduler :=
  { s with isolates := s.isolates.map updateOne }

/-- The per-context body of the DecayAttention loop
(cognitive_synergy_engine.cc, lines 112-120): sti := sti * 0.99, then if
the result is below 1.0 it is set to 1.0. -/
def decayOne (c : IsolateContext) : IsolateContext :=
  let c1 := { c with sti := c.sti * (99/100) }
  if c1.sti < 1 then { c1 with sti := 1 } else c1

/-- DecayAttention (cognitive_synergy_engine.cc, lines 108-121). -/
def DecayAttention (s : CognitiveScheduler) : CognitiveScheduler :=
  { s with isolates := s.isolates.map decayOne }

/-- RegisterIsolate (cognitive_synergy_engine.cc, lines 123-125):
unconditional push_back, no duplicate-id check. -/
def RegisterIsolate (c : IsolateContext) (s : CognitiveScheduler) :
    CognitiveScheduler :=
  { s with isolates := s.isolates ++ [c] }

/-- UnregisterIsolate (cognitive_synergy_engine.cc, lines 127-132):
erase-remove of every candidate whose id equals the argument; the cursor
is not touched. -/
def UnregisterIsolate (id : String) (s : CognitiveScheduler) :
    CognitiveScheduler :=
  { s with isolates := s.isolates.filter (fun c => c.id != id) }

/-- CognitiveSynergyEngine state (cognitive_synergy_engine.h, lines
154-170): config, the scheduler, and the registry map isolates_
(id -> IsolateContext), modelled as the list of keys in insertion order
(the stored contexts are the same objects the scheduler holds). The libuv
handles and platform are opaque. -/
structure CognitiveSynergyEngine where
  config : CognitiveSynergyConfig
  scheduler : CognitiveScheduler
  registry : List String := []
deriving Repr, DecidableEq

/-- OnCognitiveTick (cognitive_synergy_engine.cc, lines 232-241): the
timer-tick handler calls scheduler->DecayAttention() and then
scheduler->UpdateAttention(); the remaining lines are comments (TODOs). -/
def OnCognitiveTick (e : CognitiveSynergyEngine) : CognitiveSynergyEngine :=
  let s1 := DecayAttention e.scheduler
  let s2 := UpdateAttention s1
  { e with scheduler := s2 }

/-- CreateIsolate (cognitive_synergy_engine.cc, lines 254-285). allocOk
models whether v8::Isolate::New succeeds (line 260: on failure the
function returns nullptr before touching any state). Otherwise a fresh
context with the default attention values is built, stored under the id
in the registry map (operator[] assignment: an existing entry is
REPLACED, not rejected), and registered with the scheduler by
unconditional push_back. The new context is returned. -/
def CreateIsolate (allocOk : Bool) (id : String)
    (e : CognitiveSynergyEngine) :
    Option IsolateContext × CognitiveSynergyEngine :=
  if !allocOk then (none, e)
  else
    let ctx : IsolateContext := { id := id }
    let reg2 := if id ∈ e.registry then e.registry else e.registry ++ [id]
    (some ctx,
     { e with registry := reg2, scheduler := RegisterIsolate ctx e.scheduler })

/-- DestroyIsolate (cognitive_synergy_engine.cc, lines 287-308): if the id
is not in the registry map, return immediately (silent no-op); otherwise
unregister from the scheduler, release the host resources (opaque), and
erase the map entry. -/
def DestroyIsolate (id : String) (e : CognitiveSynergyEngine) :
    CognitiveSynergyEngine :=
  if id ∈ e.registry then
    { e with scheduler := UnregisterIsolate id e.scheduler,
             registry := e.registry.erase id }
  else e

/-! ### Helper lemmas -/

theorem decayOne_sti (c : IsolateContext) :
    (decayOne c).sti =
      if c.sti * (99/100) < 1 then 1 else c.sti * (99/100) := by
  simp only [decayOne]
  split <;> rfl

theorem decayOne_id (c : IsolateContext) : (decayOne c).id = c.id := by
  simp only [decayOne]
  split <;> rfl

theorem decayOne_lti (c : IsolateContext) : (decayOne c).lti = c.lti := by
  simp only [decayOne]
  split <;> rfl

theorem decayOne_memoryUsage (c : IsolateContext) :
    (decayOne c).memoryUsage = c.memoryUsage := by
  simp only [decayOne]
  split <;> rfl

theorem decayOne_sti_ge_one (c : IsolateContext) : 1 ≤ (decayOne c).sti := by
  rw [decayOne_sti]
  split
  · exact le_refl 1
  · linarith [not_lt.mp (by assumption : ¬ c.sti * (99/100) < 1)]

theorem memoryFactor_le_one (m : Nat) : memoryFactor m ≤ 1 := by
  unfold memoryFactor
  have h1 : min 1 (1 - (m : ℚ) / (1024 * 1024 * 100)) ≤ 1 := min_le_left _ _
  have h2 : (1/2 : ℚ) ≤ 1 := by norm_num
  exact max_le h2 h1

theorem memoryFactor_ge_half (m : Nat) : (1/2 : ℚ) ≤ memoryFactor m :=
  le_max_left _ _

theorem memoryFactor_pos (m : Nat) : 0 < memoryFactor m :=
  lt_of_lt_of_le (by norm_num) (memoryFactor_ge_half m)

theorem memoryFactor_100MiB : memoryFactor 104857600 = 1/2 := by
  unfold memoryFactor
  norm_num

/-! ### Claim C1 -/

/-- Claim C1, as stated, is false: UpdateAttention applies no floor clamp,
so a candidate sitting at the floor sti = 1.0 whose reported memory is
100 MiB (104857600 bytes) ends the update step at sti = 0.5 < 1.0. -/
theorem C1_counterexample :
    (UpdateAttention
        ⟨{}, [⟨"a", 1, 50, 104857600⟩], 0⟩).isolates.map
        (fun c => c.sti) = [1/2] ∧ ¬ (1 : ℚ) ≤ 1/2 := by
  constructor
  · simp [UpdateAttention, updateOne, memoryFactor]
    norm_num
  · norm_num

/-- Claim C1 (amended): after any DecayAttention call — and hence after any
number of them — every candidate's sti is at least 1.0; the floor is NOT
preserved by UpdateAttention, which can halve sti below 1.0. -/
theorem C1_decay_floor (s : CognitiveScheduler) (c : IsolateContext)
    (h : c ∈ (DecayAttention s).isolates) : 1 ≤ c.sti := by
  unfold DecayAttention at h
  simp only [List.mem_map] at h
  obtain ⟨a, _, ha⟩ := h
  rw [← ha]
  exact decayOne_sti_ge_one a

/-- Witness for C1_decay_floor at a concrete scheduler: the single
candidate with sti 50 decays to sti 99/2, which the theorem shows is at
least 1. -/
theorem C1_decay_floor_witness :
    1 ≤ (IsolateContext.mk "a" (99/2) 50 0).sti :=
  C1_decay_floor ⟨{}, [⟨"a", 50, 50, 0⟩], 0⟩ ⟨"a", 99/2, 50, 0⟩
    (by simp [DecayAttention, decayOne]; norm_num)

/-! ### Claim C5 -/

/-- Claim C5, as stated, is false: the decay step is not monotonically
non-increasing, because its floor clamp RAISES sti to 1.0 whenever the
decayed value falls below the floor (here sti 1/2 decays and is clamped
up to 1); and the memory-pressure step increases a negative sti (here
sti -2 at 100 MiB becomes -1 > -2). -/
theorem C5_counterexample :
    ((DecayAttention ⟨{}, [⟨"a", 1/2, 50, 0⟩], 0⟩).isolates.map
        (fun c => c.sti) = [1] ∧ (1/2 : ℚ) < 1) ∧
    ((UpdateAttention ⟨{}, [⟨"b", -2, 50, 104857600⟩], 0⟩).isolates.map
        (fun c => c.sti) = [-1] ∧ (-2 : ℚ) < -1) := by
  refine ⟨⟨?_, by norm_num⟩, ⟨?_, by norm_num⟩⟩
  · simp [DecayAttention, decayOne]
    norm_num
  · simp [UpdateAttention, updateOne, memoryFactor]
    norm_num

/-- Claim C5 (amended): the decay step is non-increasing in sti provided
the prior sti is at least the floor 1.0, and the memory-pressure step is
non-increasing provided the prior sti is nonnegative; without those
bounds either step can increase sti. -/
theorem C5_monotone (s : CognitiveScheduler) (i : Nat)
    (c c1 c2 : IsolateContext)
    (h : s.isolates[i]? = some c)
    (hd : (DecayAttention s).isolates[i]? = some c1)
    (hu : (UpdateAttention s).isolates[i]? = some c2) :
    (1 ≤ c.sti → c1.sti ≤ c.sti) ∧ (0 ≤ c.sti → c2.sti ≤ c.sti) := by
  have hd2 : c1 = decayOne c := by
    unfold DecayAttention at hd
    simp only [List.getElem?_map, h, Option.map_some] at hd
    exact (Option.some_injective _ hd).symm
  have hu2 : c2 = updateOne c := by
    unfold UpdateAttention at hu
    simp only [List.getElem?_map, h, Option.map_some] at hu
    exact (Option.some_injective _ hu).symm
  constructor
  · intro h1
    rw [hd2, decayOne_sti]
    split
    · exact h1
    · nlinarith
  · intro h0
    rw [hu2]
    show c.sti * memoryFactor c.memoryUsage ≤ c.sti
    calc c.sti * memoryFactor c.memoryUsage
        ≤ c.sti * 1 := by
          exact mul_le_mul_of_nonneg_left (memoryFactor_le_one _) h0
      _ = c.sti := mul_one _

/-- Witness for C5_monotone at a concrete scheduler: one candidate with
sti 50 and memory 0; decay yields 99/2 ≤ 50 and update yields 50 ≤ 50. -/
theorem C5_monotone_witness :
    ((1 : ℚ) ≤ 50 → (IsolateContext.mk "a" (99/2) 50 0).sti ≤ 50) ∧
    ((0 : ℚ) ≤ 50 → (IsolateContext.mk "a" 50 50 0).sti ≤ 50) :=
  C5_monotone ⟨{}, [⟨"a", 50, 50, 0⟩], 0⟩ 0
    ⟨"a", 50, 50, 0⟩ ⟨"a", 99/2, 50, 0⟩ ⟨"a", 50, 50, 0⟩
    (by rfl)
    (by simp [DecayAttention, decayOne]; norm_num)
    (by simp [UpdateAttention, updateOne, memoryFactor]; norm_num)

/-! ### Claim C6 -/

/-- Claim C6, as stated, is false in its "never increases sti" part: for a
candidate whose sti is negative (reachable through the exposed setSTI
accessor), multiplying by the clamped factor 0.5 increases sti (here
sti -4 at 100 MiB becomes -2 > -4). -/
theorem C6_counterexample :
    (UpdateAttention ⟨{}, [⟨"a", -4, 50, 104857600⟩], 0⟩).isolates.map
        (fun c => c.sti) = [-2] ∧ (-4 : ℚ) < -2 := by
  constructor
  · simp [UpdateAttention, updateOne, memoryFactor]
    norm_num
  · norm_num

/-- Claim C6 (amended): one UpdateAttention step multiplies each
candidate's sti by memoryFactor, the clamp of 1 - memoryBytes/100MiB to
the interval from 0.5 to 1.0; provided the prior sti is nonnegative this
never increases sti and never drives it below half its prior value, and
memoryBytes = 100 MiB (104857600 bytes) gives factor 1/2 and exactly
halves sti. -/
theorem C6_memory_pressure (s : CognitiveScheduler) (i : Nat)
    (c c2 : IsolateContext)
    (h : s.isolates[i]? = some c)
    (hu : (UpdateAttention s).isolates[i]? = some c2) :
    c2.sti = c.sti * memoryFactor c.memoryUsage ∧
    memoryFactor c.memoryUsage =
      max (1/2) (min 1 (1 - (c.memoryUsage : ℚ) / (1024 * 1024 * 100))) ∧
    (0 ≤ c.sti → c2.sti ≤ c.sti ∧ c.sti / 2 ≤ c2.sti) ∧
    (c.memoryUsage = 104857600 → c2.sti = c.sti / 2) := by
  have hu2 : c2 = updateOne c := by
    unfold UpdateAttention at hu
    simp only [List.getElem?_map, h, Option.map_some] at hu
    exact (Option.some_injective _ hu).symm
  have hsti : c2.sti = c.sti * memoryFactor c.memoryUsage := by rw [hu2]; rfl
  refine ⟨hsti, rfl, ?_, ?_⟩
  · intro h0
    constructor
    · rw [hsti]
      calc c.sti * memoryFactor c.memoryUsage
          ≤ c.sti * 1 := mul_le_mul_of_nonneg_left (memoryFactor_le_one _) h0
        _ = c.sti := mul_one _
    · rw [hsti]
      have := mul_le_mul_of_nonneg_left (memoryFactor_ge_half c.memoryUsage) h0
      linarith
  · intro hm
    rw [hsti, hm, memoryFactor_100MiB]
    ring

/-- Witness for C6_memory_pressure at a concrete scheduler: one candidate
with sti 6 and reported memory 100 MiB; the update step halves sti to 3. -/
theorem C6_memory_pressure_witness :
    (IsolateContext.mk "a" 3 50 104857600).sti =
      (6 : ℚ) * memoryFactor 104857600 ∧
    memoryFactor 104857600 =
      max (1/2) (min 1 (1 - (104857600 : ℚ) / (1024 * 1024 * 100))) ∧
    ((0 : ℚ) ≤ 6 →
      (IsolateContext.mk "a" 3 50 104857600).sti ≤ 6 ∧
      (6 : ℚ) / 2 ≤ (IsolateContext.mk "a" 3 50 104857600).sti) ∧
    ((104857600 = 104857600) →
      (IsolateContext.mk "a" 3 50 104857600).sti = (6 : ℚ) / 2) :=
  C6_memory_pressure ⟨{}, [⟨"a", 6, 50, 104857600⟩], 0⟩ 0
    ⟨"a", 6, 50, 104857600⟩ ⟨"a", 3, 50, 104857600⟩
    (by rfl)
    (by simp [UpdateAttention, updateOne, memoryFactor]; norm_num)

/-! ### Claim C7 -/

/-- Claim C7: within a timer tick, OnCognitiveTick applies DecayAttention
to the whole candidate set and then UpdateAttention, in that order, and
nothing else: the engine after the tick is exactly the engine with its
scheduler replaced by UpdateAttention applied after DecayAttention, each
candidate's new sti is the decayed-and-floored value subsequently
multiplied by the memory factor, and the registry, config, candidate
order and cursor are untouched. -/
theorem C7_tick_order (e : CognitiveSynergyEngine) (i : Nat)
    (c c1 : IsolateContext)
    (h : e.scheduler.isolates[i]? = some c)
    (ht : (OnCognitiveTick e).scheduler.isolates[i]? = some c1) :
    OnCognitiveTick e =
      { e with scheduler := UpdateAttention (DecayAttention e.scheduler) } ∧
    c1 = updateOne (decayOne c) ∧
    c1.sti = (if c.sti * (99/100) < 1 then 1 else c.sti * (99/100)) *
      memoryFactor c.memoryUsage ∧
    (OnCognitiveTick e).registry = e.registry ∧
    (OnCognitiveTick e).config = e.config ∧
    (OnCognitiveTick e).scheduler.current_index =
      e.scheduler.current_index := by
  have he : OnCognitiveTick e =
      { e with scheduler := UpdateAttention (DecayAttention e.scheduler) } := rfl
  have hc1 : c1 = updateOne (decayOne c) := by
    rw [he] at ht
    simp only [UpdateAttention, DecayAttention, List.map_map,
      List.getElem?_map, h, Option.map_some] at ht
    exact (Option.some_injective _ ht).symm
  refine ⟨he, hc1, ?_, rfl, rfl, rfl⟩
  rw [hc1]
  show (decayOne c).sti * memoryFactor (decayOne c).memoryUsage = _
  rw [decayOne_sti, decayOne_memoryUsage]

/-- Witness for C7_tick_order at a concrete engine: one candidate with
sti 50 and memory 0; the tick decays sti to 99/2 and the memory factor 1
leaves it there. -/
theorem C7_tick_order_witness :
    OnCognitiveTick ⟨{}, ⟨{}, [⟨"a", 50, 50, 0⟩], 0⟩, ["a"]⟩ =
      { (⟨{}, ⟨{}, [⟨"a", 50, 50, 0⟩], 0⟩, ["a"]⟩ : CognitiveSynergyEngine)
          with scheduler :=
            UpdateAttention (DecayAttention ⟨{}, [⟨"a", 50, 50, 0⟩], 0⟩) } ∧
    (IsolateContext.mk "a" (99/2) 50 0) =
      updateOne (decayOne ⟨"a", 50, 50, 0⟩) ∧
    (IsolateContext.mk "a" (99/2) 50 0).sti =
      (if (50 : ℚ) * (99/100) < 1 then 1 else (50 : ℚ) * (99/100)) *
        memoryFactor 0 ∧
    (OnCognitiveTick ⟨{}, ⟨{}, [⟨"a", 50, 50, 0⟩], 0⟩, ["a"]⟩).registry =
      ["a"] ∧
    (OnCognitiveTick ⟨{}, ⟨{}, [⟨"a", 50, 50, 0⟩], 0⟩, ["a"]⟩).config = {} ∧
    (OnCognitiveTick
        ⟨{}, ⟨{}, [⟨"a", 50, 50, 0⟩], 0⟩, ["a"]⟩).scheduler.current_index =
      0 :=
  C7_tick_order ⟨{}, ⟨{}, [⟨"a", 50, 50, 0⟩], 0⟩, ["a"]⟩ 0
    ⟨"a", 50, 50, 0⟩ ⟨"a", 99/2, 50, 0⟩
    (by rfl)
    (by simp [OnCognitiveTick, UpdateAttention, DecayAttention, updateOne,
          decayOne, memoryFactor]
        norm_num)

/-! ### Claim C9 -/

/-- Claim C9: for an id held by no candidate, UnregisterIsolate is a
silent no-op on the scheduler, and for an id absent from the registry,
DestroyIsolate is a silent no-op on the engine; in particular the
candidate set, the registry and GetIsolateCount are unchanged. -/
theorem C9_noop (s : CognitiveScheduler) (e : CognitiveSynergyEngine)
    (id : String)
    (hs : ∀ c ∈ s.isolates, c.id ≠ id)
    (he : id ∉ e.registry) :
    UnregisterIsolate id s = s ∧
    GetIsolateCount (UnregisterIsolate id s) = GetIsolateCount s ∧
    DestroyIsolate id e = e := by
  have h1 : UnregisterIsolate id s = s := by
    show { s with isolates := s.isolates.filter _ } = s
    have : s.isolates.filter (fun c => c.id != id) = s.isolates := by
      apply List.filter_eq_self.mpr
      intro a ha
      simpa using hs a ha
    rw [this]
  refine ⟨h1, by rw [h1], ?_⟩
  show (if id ∈ e.registry then _ else e) = e
  rw [if_neg he]

/-- Witness for C9_noop at a concrete state: unregistering and destroying
the absent id "z" leaves the one-candidate scheduler and engine alone. -/
theorem C9_noop_witness :
    UnregisterIsolate "z" ⟨{}, [⟨"a", 50, 50, 0⟩], 0⟩ =
      ⟨{}, [⟨"a", 50, 50, 0⟩], 0⟩ ∧
    GetIsolateCount (UnregisterIsolate "z" ⟨{}, [⟨"a", 50, 50, 0⟩], 0⟩) =
      GetIsolateCount ⟨{}, [⟨"a", 50, 50, 0⟩], 0⟩ ∧
    DestroyIsolate "z" ⟨{}, ⟨{}, [⟨"a", 50, 50, 0⟩], 0⟩, ["a"]⟩ =
      ⟨{}, ⟨{}, [⟨"a", 50, 50, 0⟩], 0⟩, ["a"]⟩ :=
  C9_noop ⟨{}, [⟨"a", 50, 50, 0⟩], 0⟩
    ⟨{}, ⟨{}, [⟨"a", 50, 50, 0⟩], 0⟩, ["a"]⟩ "z"
    (by intro c hc; simp at hc; rw [hc]; decide)
    (by decide)

/-! ### Claim C10 -/

/-- Claim C10: SelectNextIsolate never changes the candidate list or the
config (in round-robin mode it moves only the cursor), and DecayAttention
and UpdateAttention change only the sti of each candidate: ids, lti
values, memory samples, candidate order and count, the cursor and the
config are all preserved. -/
theorem C10_frame (s : CognitiveScheduler) :
    ((SelectNextIsolate s).2.isolates = s.isolates ∧
     (SelectNextIsolate s).2.config = s.config) ∧
    ((DecayAttention s).isolates.map (fun c => c.id) =
        s.isolates.map (fun c => c.id) ∧
     (DecayAttention s).isolates.map (fun c => c.lti) =
        s.isolates.map (fun c => c.lti) ∧
     (DecayAttention s).isolates.map (fun c => c.memoryUsage) =
        s.isolates.map (fun c => c.memoryUsage) ∧
     (DecayAttention s).current_index = s.current_index ∧
     (DecayAttention s).config = s.config) ∧
    ((UpdateAttention s).isolates.map (fun c => c.id) =
        s.isolates.map (fun c => c.id) ∧
     (UpdateAttention s).isolates.map (fun c => c.lti) =
        s.isolates.map (fun c => c.lti) ∧
     (UpdateAttention s).isolates.map (fun c => c.memoryUsage) =
        s.isolates.map (fun c => c.memoryUsage) ∧
     (UpdateAttention s).current_index = s.current_index ∧
     (UpdateAttention s).config = s.config) := by
  refine ⟨⟨?_, ?_⟩, ⟨?_, ?_, ?_, rfl, rfl⟩, ⟨?_, ?_, ?_, rfl, rfl⟩⟩
  · unfold SelectNextIsolate
    split
    · rfl
    · split <;> rfl
  · unfold SelectNextIsolate
    split
    · rfl
    · split <;> rfl
  · show (s.isolates.map decayOne).map _ = _
    rw [List.map_map]
    exact List.map_congr_left (fun c _ => decayOne_id c)
  · show (s.isolates.map decayOne).map _ = _
    rw [List.map_map]
    exact List.map_congr_left (fun c _ => decayOne_lti c)
  · show (s.isolates.map decayOne).map _ = _
    rw [List.map_map]
    exact List.map_congr_left (fun c _ => decayOne_memoryUsage c)
  · show (s.isolates.map updateOne).map _ = _
    rw [List.map_map]
    exact List.map_congr_left (fun c _ => rfl)
  · show (s.isolates.map updateOne).map _ = _
    rw [List.map_map]
    exact List.map_congr_left (fun c _ => rfl)
  · show (s.isolates.map updateOne).map _ = _
    rw [List.map_map]
    exact List.map_congr_left (fun c _ => rfl)

/-! ### Claim C2 -/

/-- Claim C2, as stated, is false: the round-robin branch increments the
cursor BEFORE indexing, so a fresh scheduler (cursor 0) with candidates
A, B, C answers the first SelectNextIsolate call with B, not A. -/
theorem C2_counterexample :
    (SelectNextIsolate
        ⟨CognitiveSynergyConfig.mk 5 4 100 false true,
         [⟨"A", 50, 50, 0⟩, ⟨"B", 50, 50, 0⟩, ⟨"C", 50, 50, 0⟩],
         0⟩).1 = some ⟨"B", 50, 50, 0⟩ ∧
    (IsolateContext.mk "B" 50 50 0) ≠ ⟨"A", 50, 50, 0⟩ := by
  constructor
  · rfl
  · decide

/-- Claim C2 (amended): in round-robin mode, a fresh scheduler holding
A, B, C in registration order answers four successive SelectNextIsolate
calls with B, C, A, B — it cycles through the candidates in registration
order, but starts at the second-registered candidate because the cursor
is pre-incremented from its initial value 0. -/
theorem C2_round_robin (cfg : CognitiveSynergyConfig)
    (hrr : cfg.attention_based_scheduling = false)
    (a b c : IsolateContext) :
    (SelectNextIsolate ⟨cfg, [a, b, c], 0⟩).1 = some b ∧
    (SelectNextIsolate (SelectNextIsolate ⟨cfg, [a, b, c], 0⟩).2).1 =
      some c ∧
    (SelectNextIsolate (SelectNextIsolate
        (SelectNextIsolate ⟨cfg, [a, b, c], 0⟩).2).2).1 = some a ∧
    (SelectNextIsolate (SelectNextIsolate (SelectNextIsolate
        (SelectNextIsolate ⟨cfg, [a, b, c], 0⟩).2).2).2).1 = some b := by
  simp [SelectNextIsolate, hrr]

/-- Witness for C2_round_robin with the default config switched to
round-robin mode and three concrete candidates. -/
theorem C2_round_robin_witness :
    (SelectNextIsolate
        ⟨CognitiveSynergyConfig.mk 5 4 100 false true,
         [⟨"A", 50, 50, 0⟩, ⟨"B", 50, 50, 0⟩, ⟨"C", 50, 50, 0⟩], 0⟩).1 =
      some ⟨"B", 50, 50, 0⟩ ∧
    (SelectNextIsolate (SelectNextIsolate
        ⟨CognitiveSynergyConfig.mk 5 4 100 false true,
         [⟨"A", 50, 50, 0⟩, ⟨"B", 50, 50, 0⟩, ⟨"C", 50, 50, 0⟩], 0⟩).2).1 =
      some ⟨"C", 50, 50, 0⟩ ∧
    (SelectNextIsolate (SelectNextIsolate (SelectNextIsolate
        ⟨CognitiveSynergyConfig.mk 5 4 100 false true,
         [⟨"A", 50, 50, 0⟩, ⟨"B", 50, 50, 0⟩, ⟨"C", 50, 50, 0⟩],
         0⟩).2).2).1 =
      some ⟨"A", 50, 50, 0⟩ ∧
    (SelectNextIsolate (SelectNextIsolate (SelectNextIsolate
        (SelectNextIsolate
          ⟨CognitiveSynergyConfig.mk 5 4 100 false true,
           [⟨"A", 50, 50, 0⟩, ⟨"B", 50, 50, 0⟩, ⟨"C", 50, 50, 0⟩],
           0⟩).2).2).2).1 =
      some ⟨"B", 50, 50, 0⟩ :=
  C2_round_robin (CognitiveSynergyConfig.mk 5 4 100 false true) rfl
    ⟨"A", 50, 50, 0⟩ ⟨"B", 50, 50, 0⟩ ⟨"C", 50, 50, 0⟩

/-! ### Claim C8 -/

/-- Claim C8, as stated, is false: if the scheduler already holds a
candidate with the same id, RegisterIsolate of a new context under that
id followed by UnregisterIsolate of the id removes BOTH (UnregisterIsolate
erases every candidate matching the id), so the count drops from 1 to 0
instead of returning to 1. -/
theorem C8_counterexample :
    GetIsolateCount
        (UnregisterIsolate "a"
          (RegisterIsolate ⟨"a", 3, 50, 0⟩ ⟨{}, [⟨"a", 7, 50, 0⟩], 0⟩)) =
      0 ∧
    GetIsolateCount ⟨{}, [⟨"a", 7, 50, 0⟩], 0⟩ = 1 := by
  constructor
  · rfl
  · rfl

/-- Claim C8 (amended): provided no already-registered candidate carries
the context's id, RegisterIsolate immediately followed by
UnregisterIsolate of that id restores the scheduler state exactly, so
GetIsolateCount and every subsequent SelectNextIsolate call behave as if
the context had never been registered. -/
theorem C8_register_unregister (s : CognitiveScheduler)
    (ctx : IsolateContext)
    (h : ∀ c ∈ s.isolates, c.id ≠ ctx.id) :
    UnregisterIsolate ctx.id (RegisterIsolate ctx s) = s ∧
    GetIsolateCount (UnregisterIsolate ctx.id (RegisterIsolate ctx s)) =
      GetIsolateCount s ∧
    SelectNextIsolate (UnregisterIsolate ctx.id (RegisterIsolate ctx s)) =
      SelectNextIsolate s := by
  have h1 : UnregisterIsolate ctx.id (RegisterIsolate ctx s) = s := by
    show { s with isolates := (s.isolates ++ [ctx]).filter _ } = s
    have hfl : (s.isolates ++ [ctx]).filter (fun c => c.id != ctx.id) =
        s.isolates := by
      rw [List.filter_append]
      have ha : s.isolates.filter (fun c => c.id != ctx.id) = s.isolates := by
        apply List.filter_eq_self.mpr
        intro a ha2
        simpa using h a ha2
      have hb : [ctx].filter (fun c => c.id != ctx.id) = [] := by
        simp
      rw [ha, hb, List.append_nil]
    rw [hfl]
  exact ⟨h1, by rw [h1], by rw [h1]⟩

/-- Witness for C8_register_unregister: registering id "b" over a
scheduler holding only id "a" and immediately unregistering "b" restores
the original scheduler. -/
theorem C8_register_unregister_witness :
    UnregisterIsolate (IsolateContext.mk "b" 50 50 0).id
        (RegisterIsolate ⟨"b", 50, 50, 0⟩ ⟨{}, [⟨"a", 7, 50, 0⟩], 0⟩) =
      ⟨{}, [⟨"a", 7, 50, 0⟩], 0⟩ ∧
    GetIsolateCount
        (UnregisterIsolate (IsolateContext.mk "b" 50 50 0).id
          (RegisterIsolate ⟨"b", 50, 50, 0⟩ ⟨{}, [⟨"a", 7, 50, 0⟩], 0⟩)) =
      GetIsolateCount ⟨{}, [⟨"a", 7, 50, 0⟩], 0⟩ ∧
    SelectNextIsolate
        (UnregisterIsolate (IsolateContext.mk "b" 50 50 0).id
          (RegisterIsolate ⟨"b", 50, 50, 0⟩ ⟨{}, [⟨"a", 7, 50, 0⟩], 0⟩)) =
      SelectNextIsolate ⟨{}, [⟨"a", 7, 50, 0⟩], 0⟩ :=
  C8_register_unregister ⟨{}, [⟨"a", 7, 50, 0⟩], 0⟩ ⟨"b", 50, 50, 0⟩
    (by intro c hc; simp at hc; rw [hc]; decide)

/-! ### Claim C4 -/

/-- Claim C4 is right about the intended behavior but the code lacks the
duplicate-id check: CreateIsolate under an id that is already registered
does NOT return null and does NOT leave the state unchanged. Evaluating
the embedded code on a fresh engine: the second CreateIsolate "a" call
(with host allocation succeeding) still returns a context, the registry
map keeps a single "a" entry (operator[] replaced it, destroying the old
context), and the scheduler's candidate vector now holds TWO entries with
id "a" — the first of them the stale pointer of the destroyed context. -/
theorem C4_duplicate_create :
    (CreateIsolate true "a"
        (CreateIsolate true "a"
          ⟨{}, ⟨{}, [], 0⟩, []⟩).2).1 = some { id := "a" } ∧
    (CreateIsolate true "a"
        (CreateIsolate true "a" ⟨{}, ⟨{}, [], 0⟩, []⟩).2).2.registry =
      ["a"] ∧
    (CreateIsolate true "a"
        (CreateIsolate true "a"
          ⟨{}, ⟨{}, [], 0⟩, []⟩).2).2.scheduler.isolates.map
        (fun c => c.id) = ["a", "a"] ∧
    GetIsolateCount
        (CreateIsolate true "a"
          (CreateIsolate true "a" ⟨{}, ⟨{}, [], 0⟩, []⟩).2).2.scheduler =
      2 := by
  refine ⟨rfl, ?_, rfl, rfl⟩
  decide

/-! ### Claim C3 -/

theorem foldl_selectStep_low (l : List IsolateContext)
    (h : ∀ d ∈ l, d.sti ≤ -1) :
    l.foldl selectStep (none, -1) = (none, -1) := by
  induction l with
  | nil => rfl
  | cons a t ih =>
    have ha : a.sti ≤ -1 := h a (List.mem_cons_self a t)
    have hstep : selectStep (none, -1) a = (none, -1) := by
      simp only [selectStep]
      rw [if_neg]
      exact not_lt.mpr ha
    rw [List.foldl_cons, hstep]
    exact ih (fun d hd => h d (List.mem_cons_of_mem a hd))

theorem exists_split_high (l : List IsolateContext)
    (h : ∃ c0 ∈ l, -1 < c0.sti) :
    ∃ l0 b lr, l = l0 ++ b :: lr ∧ (∀ d ∈ l0, d.sti ≤ -1) ∧ -1 < b.sti := by
  induction l with
  | nil =>
    obtain ⟨c0, hc0, _⟩ := h
    exact absurd hc0 (List.not_mem_nil c0)
  | cons a t ih =>
    by_cases ha : -1 < a.sti
    · exact ⟨[], a, t, rfl, by simp, ha⟩
    · obtain ⟨c0, hc0, hc0s⟩ := h
      have hct : c0 ∈ t := by
        rcases List.mem_cons.mp hc0 with h1 | h1
        · rw [h1] at hc0s
          exact absurd hc0s ha
        · exact h1
      obtain ⟨l0, b, lr, heq, hlow, hb⟩ := ih ⟨c0, hct, hc0s⟩
      refine ⟨a :: l0, b, lr, by rw [heq, List.cons_append], ?_, hb⟩
      intro d hd
      rcases List.mem_cons.mp hd with h1 | h1
      · rw [h1]
        exact not_lt.mp ha
      · exact hlow d h1

theorem head_sti_le (b c : IsolateContext) (lr l1 l2 : List IsolateContext)
    (heq : b :: lr = l1 ++ c :: l2)
    (hlt : ∀ d ∈ l1, d.sti < c.sti) : b.sti ≤ c.sti := by
  cases l1 with
  | nil =>
    simp only [List.nil_append] at heq
    injection heq with hbc _
    rw [hbc]
  | cons x l1t =>
    simp only [List.cons_append] at heq
    injection heq with hbx _
    rw [hbx]
    exact le_of_lt (hlt x (List.mem_cons_self x l1t))

theorem foldl_selectStep_max (l : List IsolateContext) :
    ∀ b : IsolateContext,
    ∃ c l1 l2, l.foldl selectStep (some b, b.sti) = (some c, c.sti) ∧
      b :: l = l1 ++ c :: l2 ∧
      (∀ d ∈ l1, d.sti < c.sti) ∧ (∀ d ∈ l2, d.sti ≤ c.sti) := by
  induction l with
  | nil =>
    intro b
    exact ⟨b, [], [], rfl, rfl, by simp, by simp⟩
  | cons a t ih =>
    intro b
    rw [List.foldl_cons]
    by_cases hab : b.sti < a.sti
    · have hstep : selectStep (some b, b.sti) a = (some a, a.sti) := by
        simp only [selectStep]
        rw [if_pos]
        exact hab
      rw [hstep]
      obtain ⟨c, l1, l2, hfold, heq, hlt, hle⟩ := ih a
      have hac : a.sti ≤ c.sti := head_sti_le a c t l1 l2 heq hlt
      refine ⟨c, b :: l1, l2, hfold, ?_, ?_, hle⟩
      · rw [List.cons_append, ← heq]
      · intro d hd
        rcases List.mem_cons.mp hd with h1 | h1
        · rw [h1]
          exact lt_of_lt_of_le hab hac
        · exact hlt d h1
    · have hstep : selectStep (some b, b.sti) a = (some b, b.sti) := by
        simp only [selectStep]
        rw [if_neg]
        exact hab
      rw [hstep]
      obtain ⟨c, l1, l2, hfold, heq, hlt, hle⟩ := ih b
      cases l1 with
      | nil =>
        simp only [List.nil_append] at heq
        injection heq with hbc htl2
        refine ⟨c, [], a :: l2, hfold, ?_, by simp, ?_⟩
        · rw [List.nil_append, ← hbc, ← htl2]
        · intro d hd
          rcases List.mem_cons.mp hd with h1 | h1
          · rw [h1, ← hbc]
            exact not_lt.mp hab
          · exact hle d h1
      | cons x l1t =>
        simp only [List.cons_append] at heq
        injection heq with hbx htl
        have hbc : b.sti < c.sti := by
          rw [hbx]
          exact hlt x (List.mem_cons_self x l1t)
        refine ⟨c, b :: a :: l1t, l2, hfold, ?_, ?_, hle⟩
        · rw [htl]
          rfl
        · intro d hd
          rcases List.mem_cons.mp hd with h1 | h1
          · rw [h1]
            exact hbc
          · rcases List.mem_cons.mp h1 with h2 | h2
            · rw [h2]
              exact lt_of_le_of_lt (not_lt.mp hab) hbc
            · exact hlt d (List.mem_cons_of_mem x h2)

/-- Claim C3, as stated, is false for candidate sets in which every sti
lies at or below the sentinel -1.0 that initializes max_sti: here the
single candidate has sti -2 (reachable through setSTI), no candidate
compares strictly above the sentinel, and attention-mode selection
returns none for a non-empty candidate set. -/
theorem C3_counterexample :
    (SelectNextIsolate ⟨{}, [⟨"a", -2, 50, 0⟩], 0⟩).1 = none ∧
    (⟨{}, [⟨"a", -2, 50, 0⟩], 0⟩ : CognitiveScheduler).isolates ≠ [] := by
  constructor
  · decide
  · decide

/-- Claim C3 (amended): in attention mode, an empty candidate set yields
none, and whenever at least one candidate's sti exceeds the sentinel
-1.0 (in particular always, under the floor invariant sti at least 1),
SelectNextIsolate returns the earliest-registered candidate of strictly
maximal sti and mutates nothing: the candidate list splits as
l1 ++ c :: l2 around the returned c, every earlier candidate has strictly
smaller sti and every later candidate has sti at most c's. A non-empty
set whose stis all sit at or below -1 instead yields none. -/
theorem C3_attention_select (s : CognitiveScheduler)
    (hmode : s.config.attention_based_scheduling = true) :
    (s.isolates = [] → (SelectNextIsolate s).1 = none) ∧
    (∀ c0 ∈ s.isolates, -1 < c0.sti →
      ∃ c l1 l2,
        (SelectNextIsolate s).1 = some c ∧
        (SelectNextIsolate s).2 = s ∧
        s.isolates = l1 ++ c :: l2 ∧
        (∀ d ∈ l1, d.sti < c.sti) ∧
        (∀ d ∈ l2, d.sti ≤ c.sti)) := by
  constructor
  · intro h
    unfold SelectNextIsolate
    rw [h]
    rfl
  · intro c0 hc0 hc0s
    have hne : s.isolates ≠ [] := List.ne_nil_of_mem hc0
    have hsel1 : (SelectNextIsolate s).1 =
        (s.isolates.foldl selectStep (none, -1)).1 := by
      simp [SelectNextIsolate, hmode, hne]
    have hsel2 : (SelectNextIsolate s).2 = s := by
      simp [SelectNextIsolate, hmode, hne]
    obtain ⟨l0, b, lr, heq0, hlow, hb⟩ :=
      exists_split_high s.isolates ⟨c0, hc0, hc0s⟩
    have hstep : selectStep (none, -1) b = (some b, b.sti) := by
      simp only [selectStep]
      rw [if_pos]
      exact hb
    obtain ⟨c, l1, l2, hfold, heqm, hlt, hle⟩ := foldl_selectStep_max lr b
    have hchain : s.isolates.foldl selectStep (none, -1) = (some c, c.sti) := by
      rw [heq0, List.foldl_append, foldl_selectStep_low l0 hlow,
        List.foldl_cons, hstep, hfold]
    have hbc : b.sti ≤ c.sti := head_sti_le b c lr l1 l2 heqm hlt
    refine ⟨c, l0 ++ l1, l2, ?_, hsel2, ?_, ?_, hle⟩
    · rw [hsel1, hchain]
    · rw [heq0, heqm, List.append_assoc]
    · intro d hd
      rcases List.mem_append.mp hd with h1 | h1
      · exact lt_of_le_of_lt (hlow d h1)
          (lt_of_lt_of_le hb hbc)
      · exact hlt d h1

/-- Witness for C3_attention_select at a concrete scheduler in the
default attention mode with candidates of sti 10 and 50: the theorem
applies with the sentinel hypothesis discharged at the second
candidate. -/
theorem C3_attention_select_witness :
    ((⟨{}, [⟨"a", 10, 50, 0⟩, ⟨"b", 50, 50, 0⟩], 0⟩ :
        CognitiveScheduler).isolates = [] →
      (SelectNextIsolate ⟨{}, [⟨"a", 10, 50, 0⟩, ⟨"b", 50, 50, 0⟩], 0⟩).1 =
        none) ∧
    (∀ c0 ∈ (⟨{}, [⟨"a", 10, 50, 0⟩, ⟨"b", 50, 50, 0⟩], 0⟩ :
        CognitiveScheduler).isolates, -1 < c0.sti →
      ∃ c l1 l2,
        (SelectNextIsolate
            ⟨{}, [⟨"a", 10, 50, 0⟩, ⟨"b", 50, 50, 0⟩], 0⟩).1 = some c ∧
        (SelectNextIsolate
            ⟨{}, [⟨"a", 10, 50, 0⟩, ⟨"b", 50, 50, 0⟩], 0⟩).2 =
          ⟨{}, [⟨"a", 10, 50, 0⟩, ⟨"b", 50, 50, 0⟩], 0⟩ ∧
        (⟨{}, [⟨"a", 10, 50, 0⟩, ⟨"b", 50, 50, 0⟩], 0⟩ :
            CognitiveScheduler).isolates = l1 ++ c :: l2 ∧
        (∀ d ∈ l1, d.sti < c.sti) ∧
        (∀ d ∈ l2, d.sti ≤ c.sti)) :=
  C3_attention_select ⟨{}, [⟨"a", 10, 50, 0⟩, ⟨"b", 50, 50, 0⟩], 0⟩ rfl

end Cognitive
